import Mathlib

/-!
Verification of the spatiotemporal matching engine of
`src/swfusion/match_era5_smap.py` (`matchManager`).

Modelling conventions:
* Degrees and wind values are rationals (`ℚ`); Python float arithmetic is
  modelled exactly.
* Timestamps are split into an absolute day index (`ℕ`), and seconds or
  minutes within the day.  Python's `timedelta` normalisation
  (`days`/`seconds` with `days = ⌊total/86400⌋`, `seconds ∈ [0, 86400)`)
  is modelled with Euclidean `ℤ` division (`/`, `%`), which coincides with
  Python's floor division for a positive modulus.
* Fallible Python code (exceptions such as `IndexError`, `ValueError`,
  `ZeroDivisionError`, and the `exit(msg)` in the orchestrator's exception
  handler) is modelled with `Except String`.
* Functions from the repository's `utils` module that are not part of the
  given source file are modelled from the spec; each such definition's doc
  comment starts with "Modelled from the spec:".
-/

namespace SeaWind

/-! ## Track fixes and the orchestrator's error handling (`extract`) -/

/-- A track fix (IBTrACS row as used by `matchManager`): identifier,
timestamp (absolute seconds), longitude (0–360) and latitude. -/
structure TCFix where
  sid : ℕ
  dt : ℤ
  lon : ℚ
  lat : ℚ
deriving DecidableEq, Repr

/-- The traversal of `matchManager.extract` (src lines 89-109): each fix is
processed inside `try ... except Exception: breakpoint(); exit(msg)`.
`exit(msg)` terminates the whole process, so the run ends at the first
failing fix.  The result records the fixes whose processing was attempted,
and the terminal error message, if any. -/
def extractTrace (process : TCFix → Except String Unit) :
    List TCFix → List TCFix × Option String
  | [] => ([], none)
  | f :: rest =>
    match process f with
    | Except.error msg => ([f], some msg)
    | Except.ok _ =>
      let r := extractTrace process rest
      (f :: r.1, r.2)

/-- A per-fix processor that fails on the fix with identifier 0 and
succeeds on every other fix (used to exhibit the orchestrator's behaviour
on an unexpected per-fix failure). -/
def failOnSidZero : TCFix → Except String Unit :=
  fun f => if f.sid = 0 then Except.error "boom" else Except.ok ()

/-! ## Track-segment interpolation (`extract_between_two_tc_records`) -/

/-- Modelled from the spec: `utils.get_center_shift_of_two_tcs(next_tc, tc)`
(not under `src/`); §4.1 describes linear interpolation of longitude and
latitude proportional to elapsed hours, so the center shift is the
coordinate difference of the two fixes. -/
def get_center_shift_of_two_tcs (next_tc tc : TCFix) : ℚ × ℚ :=
  (next_tc.lon - tc.lon, next_tc.lat - tc.lat)

/-- `matchManager.extract_between_two_tc_records` (src lines 111-132),
returning the list of `extract_detail` invocations it makes, each as
`(timestamp, longitude, latitude)`.  `delta.days`/`delta.seconds` follow
Python's `timedelta` normalisation; a zero whole-hour gap raises
`ZeroDivisionError` when the hourly shift is computed. -/
def extract_between_two_tc_records (tc next_tc : TCFix) :
    Except String (List (ℤ × ℚ × ℚ)) :=
  let delta : ℤ := next_tc.dt - tc.dt
  let deltaDays : ℤ := delta / 86400
  let deltaSeconds : ℤ := delta % 86400
  if deltaDays ≠ 0 then
    Except.ok [(tc.dt, tc.lon, tc.lat)]
  else
    let hours : ℤ := deltaSeconds / 3600
    if hours = 0 then
      Except.error "ZeroDivisionError: division by zero"
    else
      let shift := get_center_shift_of_two_tcs next_tc tc
      let hourly_lon_shift : ℚ := shift.1 / (hours : ℚ)
      let hourly_lat_shift : ℚ := shift.2 / (hours : ℚ)
      Except.ok ((List.range hours.toNat).map (fun h : ℕ =>
        (tc.dt + (h : ℤ) * 3600,
         (h : ℚ) * hourly_lon_shift + tc.lon,
         (h : ℚ) * hourly_lat_shift + tc.lat)))

/-- The claim's interpolation output: for a sub-day gap of `H` whole hours,
`H` points, the point for hour `h` at
`fix0 + h/H * (fix1 - fix0)` on each axis independently
(comparison definition following the spec's words, §4.1/§8). -/
def claimInterpList (tc next_tc : TCFix) : List (ℤ × ℚ × ℚ) :=
  let H : ℕ := ((next_tc.dt - tc.dt) / 3600).toNat
  (List.range H).map (fun h : ℕ =>
    (tc.dt + (h : ℤ) * 3600,
     tc.lon + (h : ℚ) / (H : ℚ) * (next_tc.lon - tc.lon),
     tc.lat + (h : ℚ) / (H : ℚ) * (next_tc.lat - tc.lat)))

/-! ## Grids and the bounding-square lookup (`get_square_around_tc`) -/

/-- SMAP grid resolution (degrees): `CONFIG['rss']['spatial_resolution']`,
0.25° per the spec (§4.4, "the fine grid's native padding threshold"). -/
def smapRes : ℚ := 1/4

/-- `self.lats['smap'][y] = y * 0.25 - 89.875` for `y ∈ range(720)`
(src lines 46-47), extended over `ℤ` indices via the same formula so that
a list position `j ∈ [0, 720)` holds `smapLatVal j`. -/
def smapLatVal (j : ℤ) : ℚ := j * smapRes - 89.875

/-- `self.lons['smap'][x] = x * 0.25 + 0.125` for `x ∈ range(1440)`
(src lines 48-49). -/
def smapLonVal (j : ℤ) : ℚ := j * smapRes + 0.125

/-- Python list read `l[i]` on a list of length `n` whose position `j`
holds `val j`: a negative index wraps once (`l[i] = l[n+i]` for
`-n ≤ i < 0`); anything outside `[-n, n)` raises `IndexError`. -/
def pyListGet (n : ℕ) (val : ℤ → ℚ) (i : ℤ) : Except String ℚ :=
  if 0 ≤ i ∧ i < (n : ℤ) then Except.ok (val i)
  else if -(n : ℤ) ≤ i ∧ i < 0 then Except.ok (val ((n : ℤ) + i))
  else Except.error "IndexError: list index out of range"

/-- Python float modulo `a % b` for `b > 0`: `a - b * ⌊a / b⌋`. -/
def pyFmod (a b : ℚ) : ℚ := a - b * ⌊a / b⌋

/-- Modelled from the spec: `utils.get_nearest_element_and_index`
(not under `src/`); §4.2: "returns the grid value and index closest to an
arbitrary real coordinate (ties resolved by taking the first
minimal-distance match in iteration order)".  For the ascending uniform
grid `gridVal o r j = o + j*r` this is `⌈(v-o)/r - 1/2⌉` (a tie between two
equidistant neighbours picks the lower index, i.e. the first match),
clamped to the index range `[0, n)`. -/
def nearestIdxUniform (o r : ℚ) (n : ℕ) (v : ℚ) : ℤ :=
  max 0 (min (⌈(v - o) / r - 1/2⌉) ((n : ℤ) - 1))

/-- Result of `matchManager.get_square_around_tc` (src lines 150-193). -/
structure SquareResult where
  success : Bool
  lat1_idx : ℤ
  lat2_idx : ℤ
  lon1_idx : ℤ
  lon2_idx : ℤ
  lat1 : ℚ
  lon1 : ℚ
deriving DecidableEq, Repr

/-- The body of `get_square_around_tc` after the four grid reads (src
lines 176-193): any failed read propagates its `IndexError`; otherwise the
`lat1 < -90 or lat2 > 90` check sets `success` and the western edge is
normalised with `(lon1 + 360) % 360`. -/
def squareFromReads (lat1Read lat2Read lon1Read lon2Read : Except String ℚ)
    (lat1_idx lat2_idx lon1_idx lon2_idx : ℤ) : Except String SquareResult :=
  match lat1Read with
  | Except.error e => Except.error e
  | Except.ok lat1 =>
    match lat2Read with
    | Except.error e => Except.error e
    | Except.ok lat2 =>
      let success : Bool := if lat1 < -90 ∨ lat2 > 90 then false else true
      match lon1Read with
      | Except.error e => Except.error e
      | Except.ok lon1 =>
        match lon2Read with
        | Except.error e => Except.error e
        | Except.ok _lon2 =>
          Except.ok ⟨success, lat1_idx, lat2_idx, lon1_idx, lon2_idx, lat1,
            pyFmod (lon1 + 360) 360⟩

/-- `matchManager.get_square_around_tc` (src lines 150-193):
nearest grid indices to the center, window edges at
`center ± half_edge_grid_intervals` read back from the Python lists
(negative indices wrap, overflow raises `IndexError`), the
`lat1 < -90 or lat2 > 90` check, and the `(lon1 + 360) % 360`
normalisation.  `h` is `self.half_edge_grid_intervals`. -/
def get_square_around_tc (h : ℕ) (tc_lon tc_lat : ℚ) :
    Except String SquareResult :=
  squareFromReads
    (pyListGet 720 smapLatVal (nearestIdxUniform (-89.875) smapRes 720 tc_lat - (h : ℤ)))
    (pyListGet 720 smapLatVal (nearestIdxUniform (-89.875) smapRes 720 tc_lat + (h : ℤ)))
    (pyListGet 1440 smapLonVal (nearestIdxUniform 0.125 smapRes 1440 tc_lon - (h : ℤ)))
    (pyListGet 1440 smapLonVal (nearestIdxUniform 0.125 smapRes 1440 tc_lon + (h : ℤ)))
    (nearestIdxUniform (-89.875) smapRes 720 tc_lat - (h : ℤ))
    (nearestIdxUniform (-89.875) smapRes 720 tc_lat + (h : ℤ))
    (nearestIdxUniform 0.125 smapRes 1440 tc_lon - (h : ℤ))
    (nearestIdxUniform 0.125 smapRes 1440 tc_lon + (h : ℤ))

/-- The latitude the grid formula assigns to a (possibly out-of-range)
index: `grid[i] = origin + i·resolution` (spec §3, GridDefinition
invariant).  Used to state what the window's intended latitude edge is
when the index is negative and Python indexing silently wraps. -/
def intendedLatOfIdx (i : ℤ) : ℚ := smapLatVal i

/-! ## SMAP pixel extraction (`get_smap_part`) -/

/-- A timestamp within the run: absolute day index, hour and minute of day.
(`datetime.datetime.combine(tc_dt.date(), time_)` keeps the query date and
replaces the time of day.) -/
structure SatDT where
  day : ℕ
  hour : ℕ
  minute : ℕ
deriving DecidableEq, Repr

/-- Modelled from the spec: `utils.hour_rounder` (not under `src/`);
§4.3/§4.4: the synoptic "nearest hour" of a timestamp — minute ≥ 30 rounds
the hour up, and 23:30 or later rolls over to hour 0 of the next day. -/
def hour_rounder (t : SatDT) : SatDT :=
  if 30 ≤ t.minute then
    (if t.hour + 1 = 24 then ⟨t.day + 1, 0, 0⟩ else ⟨t.day, t.hour + 1, 0⟩)
  else ⟨t.day, t.hour, 0⟩

/-- The temporal filter of `get_smap_part` (src lines 283-290):
`pixel_dt = combine(tc_dt.date(), time(minute // 60, minute % 60))`,
`delta = pixel_dt - tc_dt`, and the pixel is dropped when
`delta.days or abs(delta.seconds) >= 1800`.  `m` is the pixel's
minute-of-day from the file; `tcSec` is the query time's second-of-day.
Python's `timedelta` stores `days = ⌊total/86400⌋` and
`seconds = total mod 86400 ∈ [0, 86400)`. -/
def timeKeep (tcSec : ℕ) (m : ℕ) : Bool :=
  let total : ℤ := (m : ℤ) * 60 - (tcSec : ℤ)
  let deltaDays : ℤ := total / 86400
  let deltaSeconds : ℤ := total % 86400
  if deltaDays ≠ 0 ∨ 1800 ≤ |deltaSeconds| then false else true

/-- The claim's temporal window (comparison definition following the
spec's words, §4.3/§8): keep the pixel iff its timestamp on the query date
is strictly within 30 minutes of the query time on either side. -/
def claimedWindowKeep (tcSec : ℕ) (m : ℕ) : Bool :=
  if |(m : ℤ) * 60 - (tcSec : ℤ)| < 1800 then true else false

/-- One extracted SMAP record (`row = SMAPERA5()` as filled in
src lines 295-317).  Every field assigned by the source before the
record is appended is present; the reanalysis fields filled by the later
ERA5 passes are not part of the extraction loop's state. -/
structure SRow where
  sid : ℕ
  satdt : SatDT
  x : ℤ
  y : ℤ
  lon : ℚ
  lat : ℚ
  windspd : ℚ
deriving DecidableEq, Repr

/-- Inputs of the pixel loop of `get_smap_part` (src lines 260-336), after
the dataset has been sliced to the bounding square: array dimensions,
the sliced `minute` and `wind` fields, missing-value sentinels, the query
timestamp, the window origin `(lat1, lon1)` returned by
`get_square_around_tc`, and `half_edge_grid_intervals`. -/
structure SmapInput where
  ny : ℕ
  nx : ℕ
  np_ : ℕ
  minute : ℕ → ℕ → ℕ → ℕ
  wind : ℕ → ℕ → ℕ → ℚ
  minuteMissing : ℕ
  windMissing : ℚ
  tcDay : ℕ
  tcSec : ℕ
  lat1 : ℚ
  lon1 : ℚ
  halfIntervals : ℕ
  sid : ℕ

/-- `lat_of_row = y * resolution + lat1` (src line 272). -/
def lat_of_row (P : SmapInput) (y : ℕ) : ℚ := (y : ℚ) * smapRes + P.lat1

/-- `lon_of_col = x * resolution + lon1` (src line 275). -/
def lon_of_col (P : SmapInput) (x : ℕ) : ℚ := (x : ℚ) * smapRes + P.lon1

/-- The three filters the source applies before it builds the record and
touches the envelope (src lines 278-290): missing-value sentinels,
degenerate equal pass times, and the temporal window. -/
def keepStage1 (P : SmapInput) (y x i : ℕ) : Bool :=
  if P.minute y x i = P.minuteMissing ∨ P.wind y x i = P.windMissing then false
  else if P.minute y x 0 = P.minute y x 1 then false
  else timeKeep P.tcSec (P.minute y x i)

/-- The record built for a surviving pixel (src lines 295-317). -/
def mkRow (P : SmapInput) (y x i : ℕ) : SRow :=
  let m := P.minute y x i
  { sid := P.sid
    satdt := ⟨P.tcDay, m / 60, m % 60⟩
    x := (x : ℤ) - (P.halfIntervals : ℤ)
    y := (y : ℤ) - (P.halfIntervals : ℤ)
    lon := lon_of_col P x
    lat := lat_of_row P y
    windspd := P.wind y x i }

/-- The loop state: output records, the running envelope (initialised to
`north = -90, west = 360, south = 90, east = 0`, src lines 265-268) and
the set of synoptic hours seen (insertion order models the Python set). -/
structure ExtractState where
  data : List SRow
  north : ℚ
  west : ℚ
  south : ℚ
  east : ℚ
  hourtimes : List ℕ
deriving DecidableEq, Repr

/-- Initial loop state (src lines 264-269). -/
def initState : ExtractState := ⟨[], -90, 360, 90, 0, []⟩

/-- The body of the pixel loop (src lines 277-336) for one `(y, x, i)`.
Mirrors the source's control flow: the stage-1 filters come first; a
surviving pixel updates the envelope; only then is the
23:xx-rounding-to-next-day check applied, so a pixel it discards has
already moved the envelope.  The final "no column is None" check can never
fire (every field of the record has been assigned just above it), so it is
not represented. -/
def smapStep (P : SmapInput) (st : ExtractState) (c : ℕ × ℕ × ℕ) :
    ExtractState :=
  let y := c.1
  let x := c.2.1
  let i := c.2.2
  if keepStage1 P y x i then
    let row := mkRow P y x i
    let west := if row.lon < st.west then row.lon else st.west
    let east := if st.east < row.lon then row.lon else st.east
    let south := if row.lat < st.south then row.lat else st.south
    let north := if st.north < row.lat then row.lat else st.north
    let this_hourtime := (hour_rounder row.satdt).hour
    if row.satdt.hour = 23 ∧ this_hourtime = 0 then
      ⟨st.data, north, west, south, east, st.hourtimes⟩
    else
      ⟨st.data ++ [row], north, west, south, east,
       if this_hourtime ∈ st.hourtimes then st.hourtimes
       else st.hourtimes ++ [this_hourtime]⟩
  else st

/-- Iteration order of the triple loop `for y: for x: for i` (src lines
271-277). -/
def cells (P : SmapInput) : List (ℕ × ℕ × ℕ) :=
  (List.range P.ny).flatMap (fun y =>
    (List.range P.nx).flatMap (fun x =>
      (List.range P.np_).map (fun i => (y, x, i))))

/-- The pixel loop of `get_smap_part` run to completion. -/
def get_smap_part_loop (P : SmapInput) : ExtractState :=
  (cells P).foldl (smapStep P) initState

/-- The padded bounding area `[north + 0.5, west - 0.5, south - 0.5,
east + 0.5]` (src lines 346-347). -/
def areaOf (st : ExtractState) : ℚ × ℚ × ℚ × ℚ :=
  (st.north + 1/2, st.west - 1/2, st.south - 1/2, st.east + 1/2)

/-! ## Full `get_smap_part`, its caller, and the orchestrator guard -/

/-- The raw satellite dataset (the netCDF variables `minute` and `wind`
over the full 720 × 1440 grid, plus pass count and the configured
missing-value sentinels). -/
structure SmapDataset where
  minute : ℕ → ℕ → ℕ → ℕ
  wind : ℕ → ℕ → ℕ → ℚ
  passes : ℕ
  minuteMissing : ℕ
  windMissing : ℚ

/-- Normalised start of the Python slice `l[start:stop]` on length `n`. -/
def pySliceStart (n : ℕ) (i : ℤ) : ℕ :=
  if i < 0 then (max 0 ((n : ℤ) + i)).toNat else min i.toNat n

/-- Length of the Python slice `l[start:stop]` on length `n`. -/
def pySliceLen (n : ℕ) (start stop : ℤ) : ℕ :=
  pySliceStart n stop - pySliceStart n start

/-- What `get_smap_part` returns: the failure branch returns the 2-tuple
`[], None` (src line 241) while the normal branch returns the 3-tuple
`data, list(hourtimes), area` (src line 349).  A Python tuple has no fixed
arity, so both shapes are values of one return type. -/
inductive GsmapRet where
  | pair : List SRow → Option Unit → GsmapRet
  | triple : List SRow → List ℕ → ℚ × ℚ × ℚ × ℚ → GsmapRet
deriving DecidableEq

/-- `get_smap_part` after the bounding-square lookup (src lines 240-349):
the `not success` early return, otherwise slicing the dataset to the
square and running the pixel loop.  Factored over the already-computed
`SquareResult` exactly as the source computes it first and then branches. -/
def get_smap_part_core (D : SmapDataset) (h sid tcDay tcSec : ℕ)
    (sq : SquareResult) : GsmapRet :=
  if sq.success = false then
    GsmapRet.pair [] none
  else
    let latStart := pySliceStart 720 sq.lat1_idx
    let lonStart := pySliceStart 1440 sq.lon1_idx
    let P : SmapInput :=
      { ny := pySliceLen 720 sq.lat1_idx (sq.lat2_idx + 1)
        nx := pySliceLen 1440 sq.lon1_idx (sq.lon2_idx + 1)
        np_ := D.passes
        minute := fun y x i => D.minute (latStart + y) (lonStart + x) i
        wind := fun y x i => D.wind (latStart + y) (lonStart + x) i
        minuteMissing := D.minuteMissing
        windMissing := D.windMissing
        tcDay := tcDay
        tcSec := tcSec
        lat1 := sq.lat1
        lon1 := sq.lon1
        halfIntervals := h
        sid := sid }
    let st := get_smap_part_loop P
    GsmapRet.triple st.data st.hourtimes (areaOf st)

/-- `matchManager.get_smap_part` (src lines 236-349). -/
def get_smap_part (D : SmapDataset) (h sid tcDay tcSec : ℕ)
    (tc_lon tc_lat : ℚ) : Except String GsmapRet :=
  match get_square_around_tc h tc_lon tc_lat with
  | Except.error e => Except.error e
  | Except.ok sq => Except.ok (get_smap_part_core D h sid tcDay tcSec sq)

/-- The caller's tuple unpacking
`data, hourtimes, area = self.get_smap_part(...)` (src lines 229-232):
unpacking a 2-tuple into three names raises `ValueError`. -/
def unpack3 : GsmapRet → Except String (List SRow × List ℕ × (ℚ × ℚ × ℚ × ℚ))
  | GsmapRet.pair _ _ =>
    Except.error "ValueError: not enough values to unpack (expected 3, got 2)"
  | GsmapRet.triple d ht a => Except.ok (d, ht, a)

/-- `matchManager.extract_smap` (src lines 195-234): download the file
(external), call `get_smap_part` and unpack its result. -/
def extract_smap (D : SmapDataset) (h sid tcDay tcSec : ℕ)
    (tc_lon tc_lat : ℚ) :
    Except String (List SRow × List ℕ × (ℚ × ℚ × ℚ × ℚ)) :=
  match get_smap_part D h sid tcDay tcSec tc_lon tc_lat with
  | Except.error e => Except.error e
  | Except.ok r => unpack3 r

/-! ## Hour bucketing (`get_hourtime_row_mapper`) and the ERA5 passes -/

/-- `matchManager.get_hourtime_row_mapper` (src lines 518-532): reads
`satel_part[0].satel_datetime.day` (an `IndexError` on an empty list),
then buckets each record index by `100 * hour` of its rounded timestamp,
dropping records whose rounded timestamp is not on the first record's
day.  The bucket for key `100*k` holds the indices in traversal order. -/
def get_hourtime_row_mapper (satel_part : List SRow) :
    Except String (List (ℕ × List ℕ)) :=
  match satel_part with
  | [] => Except.error "IndexError: list index out of range"
  | r0 :: _ =>
    let satel_day := r0.satdt.day
    Except.ok ((List.range 24).map (fun k =>
      (100 * k,
       (List.range satel_part.length).filter (fun idx =>
         match satel_part.get? idx with
         | some row =>
           let t := hour_rounder row.satdt
           decide (t.day = satel_day) && decide (t.hour = k)
         | none => false))))

/-- The row indices the two resampling passes iterate over:
`for hourtime in range(0, 2400, 100): for idx in hourtime_row_mapper[hourtime]`
(src lines 418-439 and 574-595) — the union of all buckets.  Both passes
assign reanalysis values only to rows whose index they reach this way. -/
def rowsTouchedByPasses (M : List (ℕ × List ℕ)) : List ℕ :=
  M.flatMap (fun b => b.2)

/-- `add_era5_single_levels` as seen by the orchestrator's trace of
hour-bucket-builder calls: the rows are mutated in place (reanalysis
fields are set on each bucketed row), so the list object itself — its
length, order and satellite timestamps — is unchanged when the pressure
pass later rebuilds the buckets from it (src lines 403-505, 561). -/
def add_era5_single_levels_rows (rows : List SRow) : List SRow := rows

/-- `matchManager.extract_detail` (src lines 134-148), recorded as the
list of record lists handed to `get_hourtime_row_mapper`: extraction, the
`if not len(data): return` guard, then the single-levels pass (first
mapper call, src line 405) and the pressure-levels pass (second mapper
call, src line 561) on the same in-place-mutated list. -/
def extract_detail_mapper_calls (D : SmapDataset) (h sid tcDay tcSec : ℕ)
    (tc_lon tc_lat : ℚ) : Except String (List (List SRow)) :=
  match extract_smap D h sid tcDay tcSec tc_lon tc_lat with
  | Except.error e => Except.error e
  | Except.ok (data, _hourtimes, _area) =>
    if data.length = 0 then Except.ok []
    else Except.ok [data, add_era5_single_levels_rows data]

/-! ## Grid resampling value computation (the two ERA5 passes) -/

/-- Arithmetic mean of the inclusive submatrix
`data[lat1..lat2, lon1..lon2]` — `square_data.mean()` for the slice
`data[lat1_idx:lat2_idx+1, lon1_idx:lon2_idx+1]`. -/
def sliceMean (data : ℕ → ℕ → ℚ) (lat1 lat2 lon1 lon2 : ℕ) : ℚ :=
  (((List.range (lat2 + 1 - lat1)).flatMap (fun a =>
      (List.range (lon2 + 1 - lon1)).map (fun b =>
        data (lat1 + a) (lon1 + b)))).sum) /
    (((lat2 + 1 - lat1) * (lon2 + 1 - lon1) : ℕ) : ℚ)

/-- Arithmetic mean of the whole `R × C` field — `data.mean()` on the full
array read over the bounding area. -/
def fullMean (R C : ℕ) (data : ℕ → ℕ → ℚ) : ℚ :=
  sliceMean data 0 (R - 1) 0 (C - 1)

/-- The claim's value at 0.25° resolution (comparison definition following
the spec's words, §4.5/§8): the arithmetic mean of the enclosing 2×2
cells' four corner values. -/
def fourCornerMean (data : ℕ → ℕ → ℚ) (lat1 lon1 : ℕ) : ℚ :=
  (data lat1 lon1 + data lat1 (lon1 + 1) +
   data (lat1 + 1) lon1 + data (lat1 + 1) (lon1 + 1)) / 4

/-- The per-record value computation of `add_era5_single_levels`
(src lines 465-479): at 0.25° resolution the mean of the sliced 2×2
square, otherwise bilinear interpolation (scipy `interp2d`, an external
call passed in as `interp`). -/
def single_levels_value (data : ℕ → ℕ → ℚ)
    (lat1_idx lat2_idx lon1_idx lon2_idx : ℕ)
    (grb_spa_resolu : ℚ) (interp : ℚ) : ℚ :=
  if grb_spa_resolu = 1/4 then sliceMean data lat1_idx lat2_idx lon1_idx lon2_idx
  else interp

/-- The per-record value computation of `add_era5_pressure_levels`
(src lines 632-646): the slice `square_data` is computed, but at 0.25°
resolution the source averages `data.mean()` — the whole field read over
the bounding area — not the square. -/
def pressure_levels_value (R C : ℕ) (data : ℕ → ℕ → ℚ)
    (lat1_idx lat2_idx lon1_idx lon2_idx : ℕ)
    (grb_spa_resolu : ℚ) (interp : ℚ) : ℚ :=
  let _square_data := sliceMean data lat1_idx lat2_idx lon1_idx lon2_idx
  if grb_spa_resolu = 1/4 then fullMean R C data
  else interp

/-! ## Helper lemmas -/

/-- Evaluation helper for `⌈q⌉`. -/
theorem ceilEval (q : ℚ) (n : ℤ) (h1 : (n : ℚ) - 1 < q) (h2 : q ≤ (n : ℚ)) :
    ⌈q⌉ = n := by
  rw [Int.ceil_eq_iff]
  exact ⟨h1, h2⟩

/-- Evaluation helper for `nearestIdxUniform` at an in-range coordinate. -/
theorem nearestIdxUniform_eval (o r : ℚ) (n : ℕ) (v : ℚ) (k : ℤ)
    (hk0 : 0 ≤ k) (hk : k < (n : ℤ))
    (h1 : (k : ℚ) - 1/2 < (v - o) / r) (h2 : (v - o) / r ≤ (k : ℚ) + 1/2) :
    nearestIdxUniform o r n v = k := by
  unfold nearestIdxUniform
  rw [ceilEval ((v - o) / r - 1/2) k (by linarith) (by linarith)]
  omega

/-- The code's hourly interpolants coincide with the claim's
`fix0 + h/H * (fix1 - fix0)` form. -/
theorem interp_form (a : ℤ) (lo la dlo dla : ℚ) (z : ℤ) (hz : 0 < z) (n : ℕ)
    (hn : n = z.toNat) :
    (List.range n).map (fun h : ℕ =>
      ((a + (h : ℤ) * 3600 : ℤ),
       ((h : ℚ) * (dlo / (z : ℚ)) + lo : ℚ),
       ((h : ℚ) * (dla / (z : ℚ)) + la : ℚ))) =
    (List.range n).map (fun h : ℕ =>
      ((a + (h : ℤ) * 3600 : ℤ),
       (lo + (h : ℚ) / (n : ℚ) * dlo : ℚ),
       (la + (h : ℚ) / (n : ℚ) * dla : ℚ))) := by
  subst hn
  refine List.map_congr_left ?_
  intro h _
  have hzn : ((z.toNat : ℕ) : ℚ) = ((z : ℤ) : ℚ) := by
    exact_mod_cast congrArg (Int.cast : ℤ → ℚ) (Int.toNat_of_nonneg hz.le)
  rw [hzn]
  refine congrArg₂ Prod.mk rfl (congrArg₂ Prod.mk ?_ ?_) <;> ring

/-! ## C1: failures in per-fix processing and the traversal -/

/-- Concrete fixes for the error-handling scenario. -/
def fix0 : TCFix := ⟨0, 0, 100, 10⟩

/-- Second fix of the error-handling scenario. -/
def fix1 : TCFix := ⟨1, 21600, 105, 12⟩

/-- C1, counterexample: with a processor that fails on the first fix, the
traversal of `extract` stops there — the run ends with the terminal error
(`exit(msg)`) and the second fix is never processed, contradicting the
claim that the traversal continues with the next fix. -/
theorem c1_counterexample :
    extractTrace failOnSidZero [fix0, fix1] = ([fix0], some "boom") ∧
    fix1 ∉ (extractTrace failOnSidZero [fix0, fix1]).1 := by
  constructor
  · rfl
  · rw [show extractTrace failOnSidZero [fix0, fix1] = ([fix0], some "boom") from rfl]
    simp only [List.mem_singleton]
    intro hEq
    have : fix1.sid = fix0.sid := by rw [hEq]
    simp [fix0, fix1] at this

/-- C1, amended: an unexpected failure while processing a fix terminates
the whole run at that fix (the `except` handler calls `exit(msg)`): the
fixes before it are processed, the failing fix is the last one attempted,
and the terminal error is the failure's message — later fixes are never
processed. -/
theorem c1_failure_halts_run (p : TCFix → Except String Unit)
    (pre : List TCFix) (f : TCFix) (post : List TCFix) (msg : String)
    (hpre : ∀ g ∈ pre, p g = Except.ok ())
    (hf : p f = Except.error msg) :
    extractTrace p (pre ++ f :: post) = (pre ++ [f], some msg) := by
  induction pre with
  | nil => simp [extractTrace, hf]
  | cons a l ih =>
    have ha : p a = Except.ok () := hpre a (by simp)
    have ihl := ih (fun g hg => hpre g (by simp [hg]))
    simp only [List.cons_append, extractTrace, ha, List.append_eq, ihl]

/-- C1, witness for the amended theorem: a run whose second fix fails
processes exactly the first two fixes and ends with the error. -/
theorem c1_failure_halts_run_witness :
    extractTrace failOnSidZero [fix1, fix0] = ([fix1, fix0], some "boom") :=
  c1_failure_halts_run failOnSidZero [fix1] fix0 [] "boom"
    (by intro g hg; simp only [List.mem_singleton] at hg; rw [hg]; rfl) rfl

/-! ## C2: the temporal window of `get_smap_part` -/

/-- C2: the code's window is one-sided.  At query time 11:59:59
(second-of-day 43199), a pixel with minute-of-day 690 (11:30:00, offset
−1799 s, same calendar day) satisfies the claim's ±30-minute window but is
discarded by the code: `pixel_dt - tc_dt` normalises to `days = -1`, so
`if delta.days` fires for every pixel earlier than the query time.  On
the later side the code behaves as claimed: at query second 41401 a pixel
at +1799 s is kept, and at query second 41400 a pixel at +1800 s is
dropped. -/
theorem c2_window_one_sided :
    claimedWindowKeep 43199 690 = true ∧
    timeKeep 43199 690 = false ∧
    timeKeep 41401 720 = true ∧
    timeKeep 41400 720 = false := by
  refine ⟨?_, ?_, ?_, ?_⟩ <;> decide

/-! ## C3: day-or-more gaps between consecutive fixes -/

/-- First fix of the large-gap scenario. -/
def fixA : TCFix := ⟨7, 0, 100, 10⟩

/-- Second fix of the large-gap scenario, two days later. -/
def fixB : TCFix := ⟨7, 172800, 110, 20⟩

/-- C3, counterexample: for two same-track fixes two days apart, the
single extraction is performed at the **first** fix's point
(`tc.date_time, tc.lon, tc.lat`, src line 117), not at the second fix's
point as the claim states. -/
theorem c3_counterexample :
    extract_between_two_tc_records fixA fixB ≠
      Except.ok [(fixB.dt, fixB.lon, fixB.lat)] ∧
    extract_between_two_tc_records fixA fixB =
      Except.ok [(fixA.dt, fixA.lon, fixA.lat)] := by
  constructor
  · intro hEq
    rw [show extract_between_two_tc_records fixA fixB =
          Except.ok [(fixA.dt, fixA.lon, fixA.lat)] from rfl] at hEq
    have : fixA.dt = fixB.dt := by
      injection hEq with h1
      injection h1 with h2
      exact congrArg Prod.fst h2
    simp [fixA, fixB] at this
  · rfl

/-- C3, amended: when the time delta between two consecutive same-track
fixes spans a full day or more, no interpolation is performed and
extraction happens only at the **first** fix's original point. -/
theorem c3_day_gap_extracts_first_fix (tc next_tc : TCFix)
    (hgap : 86400 ≤ next_tc.dt - tc.dt) :
    extract_between_two_tc_records tc next_tc =
      Except.ok [(tc.dt, tc.lon, tc.lat)] := by
  have hdays : (next_tc.dt - tc.dt) / 86400 ≠ 0 := by
    have h1 : 1 ≤ (next_tc.dt - tc.dt) / 86400 := by
      rw [Int.le_ediv_iff_mul_le (by norm_num)]
      omega
    omega
  simp [extract_between_two_tc_records, hdays]

/-- C3, witness for the amended theorem. -/
theorem c3_day_gap_extracts_first_fix_witness :
    extract_between_two_tc_records fixA fixB =
      Except.ok [(fixA.dt, fixA.lon, fixA.lat)] :=
  c3_day_gap_extracts_first_fix fixA fixB (by decide)

/-! ## C7: hourly interpolation of sub-day gaps -/

/-- C7: for consecutive same-track fixes with a sub-day positive gap, the
interpolator emits exactly `H = ⌊gap hours⌋` points, and the point for
hour `h` is the exact linear interpolant
`fix0 + h/H * (fix1 - fix0)` on each axis independently. -/
theorem c7_interpolation_exact (tc next_tc : TCFix)
    (hsid : tc.sid = next_tc.sid)
    (hlo : 3600 ≤ next_tc.dt - tc.dt) (hhi : next_tc.dt - tc.dt < 86400) :
    extract_between_two_tc_records tc next_tc =
      Except.ok (claimInterpList tc next_tc) ∧
    (claimInterpList tc next_tc).length = ((next_tc.dt - tc.dt) / 3600).toNat := by
  have h0 : (0 : ℤ) ≤ next_tc.dt - tc.dt := by omega
  have hdays : (next_tc.dt - tc.dt) / 86400 = 0 := Int.ediv_eq_zero_of_lt h0 hhi
  have hmod : (next_tc.dt - tc.dt) % 86400 = next_tc.dt - tc.dt :=
    Int.emod_eq_of_lt h0 hhi
  have hhours1 : 1 ≤ (next_tc.dt - tc.dt) / 3600 := by
    rw [Int.le_ediv_iff_mul_le (by norm_num)]
    omega
  have hhours : (next_tc.dt - tc.dt) / 3600 ≠ 0 := by omega
  constructor
  · simp only [extract_between_two_tc_records, hdays, hmod, claimInterpList,
      get_center_shift_of_two_tcs, ne_eq, eq_self_iff_true, not_true, hhours,
      if_false, ite_false, not_false_iff, if_true, ite_true]
    exact congrArg Except.ok
      (interp_form tc.dt tc.lon tc.lat (next_tc.lon - tc.lon)
        (next_tc.lat - tc.lat) ((next_tc.dt - tc.dt) / 3600) (by omega) _ rfl)
  · simp only [claimInterpList, List.length_map, List.length_range]

/-- First fix of the interpolation witness scenario. -/
def fixC : TCFix := ⟨3, 0, 100, 10⟩

/-- Second fix of the interpolation witness scenario, two hours later. -/
def fixD : TCFix := ⟨3, 7200, 104, 12⟩

/-- C7, witness: a two-hour gap produces exactly the two claimed
interpolants. -/
theorem c7_interpolation_exact_witness :
    extract_between_two_tc_records fixC fixD =
      Except.ok (claimInterpList fixC fixD) ∧
    (claimInterpList fixC fixD).length = ((fixD.dt - fixC.dt) / 3600).toNat :=
  c7_interpolation_exact fixC fixD rfl (by decide) (by decide)

/-! ## C4: area-mean resampling at 0.25° resolution -/

/-- A concrete 3×3 reanalysis field: the enclosing 2×2 square (rows 0-1,
columns 0-1) holds 1 everywhere; the remaining cells bring the full-field
mean to 2. -/
def presData3 : ℕ → ℕ → ℚ := fun i j =>
  if i ≤ 1 ∧ j ≤ 1 then 1 else if i = 2 ∧ j = 2 then 2 else 3

/-- C4: at 0.25° resolution the single-levels pass averages the enclosing
2×2 square, but the pressure-levels pass averages the **whole** field read
over the bounding area (`data.mean()`, src line 640) — on a field whose
full-area mean is 2 while the four enclosing corners average to 1, the
record receives 2, not the claimed four-corner mean. -/
theorem c4_pressure_pass_full_area_mean :
    pressure_levels_value 3 3 presData3 0 1 0 1 (1/4) 0 = 2 ∧
    fourCornerMean presData3 0 0 = 1 ∧
    single_levels_value presData3 0 1 0 1 (1/4) 0 = 1 ∧
    pressure_levels_value 3 3 presData3 0 1 0 1 (1/4) 0 ≠
      fourCornerMean presData3 0 0 := by
  refine ⟨?_, ?_, ?_, ?_⟩ <;>
    norm_num [pressure_levels_value, single_levels_value, fullMean, sliceMean,
      fourCornerMean, presData3, List.range_succ, List.flatMap_append,
      List.flatMap_cons, List.flatMap_nil]

/-! ## C5: the pole check of `get_square_around_tc` -/

/-- C5: the pole check is dead and overflow raises instead of signalling.
With a half-window of 2 grid steps and a center on the southernmost grid
row (latitude −89.875), the south edge index is −2 — by the grid formula
its latitude is −90.375, below −90°, so the claim requires `success =
false`.  But the compared values are read from the Python list, where
index −2 silently wraps to the row at 89.625°, so the check passes and the
lookup returns `success = true` with the wrapped window.  At the opposite
pole (center 89.875) the north edge index 721 overflows the 720-row list
and the lookup raises `IndexError` instead of signalling anything. -/
theorem c5_pole_check_dead :
    get_square_around_tc 2 (801/8) (-719/8) =
      Except.ok ⟨true, -2, 2, 398, 402, 717/8, 797/8⟩ ∧
    intendedLatOfIdx (-2) < -90 ∧
    get_square_around_tc 2 (801/8) (719/8) =
      Except.error "IndexError: list index out of range" := by
  have hlon : nearestIdxUniform 0.125 smapRes 1440 (801/8) = 400 :=
    nearestIdxUniform_eval _ _ _ _ 400 (by norm_num) (by norm_num)
      (by norm_num [smapRes]) (by norm_num [smapRes])
  refine ⟨?_, ?_, ?_⟩
  · have hlat : nearestIdxUniform (-89.875) smapRes 720 (-719/8) = 0 :=
      nearestIdxUniform_eval _ _ _ _ 0 (by norm_num) (by norm_num)
        (by norm_num [smapRes]) (by norm_num [smapRes])
    have hpy1 : pyListGet 720 smapLatVal ((0 : ℤ) - 2) = Except.ok (717/8) := by
      norm_num [pyListGet, smapLatVal, smapRes]
    have hpy2 : pyListGet 720 smapLatVal ((0 : ℤ) + 2) = Except.ok (-715/8) := by
      norm_num [pyListGet, smapLatVal, smapRes]
    have hpy3 : pyListGet 1440 smapLonVal ((400 : ℤ) - 2) = Except.ok (797/8) := by
      norm_num [pyListGet, smapLonVal, smapRes]
    have hpy4 : pyListGet 1440 smapLonVal ((400 : ℤ) + 2) = Except.ok (805/8) := by
      norm_num [pyListGet, smapLonVal, smapRes]
    simp only [get_square_around_tc, Nat.cast_ofNat]
    rw [hlon, hlat, hpy1, hpy2, hpy3, hpy4]
    have hfl : (⌊((797 : ℚ)/8 + 360) / 360⌋ : ℤ) = 1 := by
      rw [Int.floor_eq_iff] <;> norm_num
    norm_num [squareFromReads, pyFmod, hfl]
  · norm_num [intendedLatOfIdx, smapLatVal, smapRes]
  · have hlat : nearestIdxUniform (-89.875) smapRes 720 (719/8) = 719 :=
      nearestIdxUniform_eval _ _ _ _ 719 (by norm_num) (by norm_num)
        (by norm_num [smapRes]) (by norm_num [smapRes])
    have hpy1 : pyListGet 720 smapLatVal ((719 : ℤ) - 2) = Except.ok (715/8) := by
      norm_num [pyListGet, smapLatVal, smapRes]
    have hpy2 : pyListGet 720 smapLatVal ((719 : ℤ) + 2) =
        Except.error "IndexError: list index out of range" := by
      norm_num [pyListGet]
    simp only [get_square_around_tc, Nat.cast_ofNat]
    rw [hlat, hpy1, hpy2]
    simp only [squareFromReads]

/-! ## C6: what happens on an unusable bounding window -/

/-- A dataset with constant fields, for exercising code paths that never
read it. -/
def trivialDataset : SmapDataset := ⟨fun _ _ _ => 0, fun _ _ _ => 0, 2, 0, 0⟩

/-- A square-lookup result carrying `success = false`. -/
def unusableSquare : SquareResult := ⟨false, 0, 0, 0, 0, 0, 0⟩

/-- C6: when the bounding-square lookup signals `success = False`,
`get_smap_part` returns the 2-tuple `[], None` (src line 241), but its
caller `extract_smap` unpacks three values (src line 229), so the fix's
processing raises `ValueError` instead of yielding an empty result and
continuing.  (With the shipped grid this branch is unreachable: the pole
check compares clamped grid values and `success` is always `True`.) -/
theorem c6_unusable_square_raises (D : SmapDataset) (h sid tcDay tcSec : ℕ)
    (sq : SquareResult) (hsq : sq.success = false) :
    unpack3 (get_smap_part_core D h sid tcDay tcSec sq) =
      Except.error "ValueError: not enough values to unpack (expected 3, got 2)" := by
  simp [get_smap_part_core, hsq, unpack3]

/-- C6, witness: the failure branch's value raises at the caller. -/
theorem c6_unusable_square_raises_witness :
    unpack3 (get_smap_part_core trivialDataset 2 0 0 0 unusableSquare) =
      Except.error "ValueError: not enough values to unpack (expected 3, got 2)" :=
  c6_unusable_square_raises trivialDataset 2 0 0 0 unusableSquare rfl

/-! ## C8: records whose rounded hour crosses midnight -/

/-- C8: a record whose timestamp rounds to the next calendar day (hour 23
rounding to hour 0) appears in no bucket of `get_hourtime_row_mapper`
(its rounded day differs from the batch's reference day), and is
therefore never reached by either resampling pass's
`for idx in hourtime_row_mapper[hourtime]` iteration. -/
theorem c8_midnight_rounding_never_bucketed
    (r0 : SRow) (rest : List SRow) (M : List (ℕ × List ℕ)) (idx : ℕ) (r : SRow)
    (hM : get_hourtime_row_mapper (r0 :: rest) = Except.ok M)
    (hr : (r0 :: rest).get? idx = some r)
    (hday : r.satdt.day = r0.satdt.day)
    (hhour : r.satdt.hour = 23)
    (hround : (hour_rounder r.satdt).hour = 0) :
    (∀ b ∈ M, idx ∉ b.2) ∧ idx ∉ rowsTouchedByPasses M := by
  have hmin : 30 ≤ r.satdt.minute := by
    by_contra hlt
    push_neg at hlt
    unfold hour_rounder at hround
    rw [if_neg (by omega)] at hround
    simp only at hround
    omega
  have hrday : (hour_rounder r.satdt).day = r.satdt.day + 1 := by
    unfold hour_rounder
    rw [if_pos hmin, if_pos (by omega)]
  have key : ∀ b ∈ M, idx ∉ b.2 := by
    intro b hb hidx
    simp only [get_hourtime_row_mapper, Except.ok.injEq] at hM
    subst hM
    simp only [List.mem_map, List.mem_range] at hb
    obtain ⟨k, _, hbk⟩ := hb
    subst hbk
    simp only [List.mem_filter, List.mem_range] at hidx
    obtain ⟨_, hcond⟩ := hidx
    rw [hr] at hcond
    simp only [Bool.and_eq_true, decide_eq_true_eq] at hcond
    have := hcond.1
    omega
  refine ⟨key, ?_⟩
  intro htouch
  simp only [rowsTouchedByPasses, List.mem_flatMap] at htouch
  obtain ⟨b, hb, hidx⟩ := htouch
  exact key b hb hidx

/-- A record at 23:45 of day 5 — its synoptic hour rounds to 00:00 of
day 6. -/
def rowMidnight : SRow := ⟨1, ⟨5, 23, 45⟩, 0, 0, 100, 10, 20⟩

/-- The 24 empty hour buckets. -/
def emptyBuckets : List (ℕ × List ℕ) := (List.range 24).map (fun k => (100 * k, []))

/-- C8, witness: a batch consisting only of the 23:45 record yields empty
buckets, and the record's index is touched by no resampling pass. -/
theorem c8_midnight_rounding_never_bucketed_witness :
    (0 : ℕ) ∉ rowsTouchedByPasses emptyBuckets :=
  (c8_midnight_rounding_never_bucketed rowMidnight [] emptyBuckets 0 rowMidnight
    rfl rfl rfl rfl rfl).2

/-! ## C9: the bounding envelope and which pixels feed it -/

/-- The cells that survive the stage-1 filters, in loop order: exactly the
pixels whose coordinates the source folds into the running envelope
(src lines 302-312) — including those later discarded by the
midnight-rounding check. -/
def stage1Cells (P : SmapInput) : List (ℕ × ℕ × ℕ) :=
  (cells P).filter (fun c => keepStage1 P c.1 c.2.1 c.2.2)

/-- Running `if row.lat > north: north = row.lat` over the stage-1 pixels. -/
def envNorth (P : SmapInput) : ℚ :=
  (stage1Cells P).foldl
    (fun acc c => if acc < lat_of_row P c.1 then lat_of_row P c.1 else acc) (-90)

/-- Running `if row.lon < west: west = row.lon` over the stage-1 pixels. -/
def envWest (P : SmapInput) : ℚ :=
  (stage1Cells P).foldl
    (fun acc c => if lon_of_col P c.2.1 < acc then lon_of_col P c.2.1 else acc) 360

/-- Running `if row.lat < south: south = row.lat` over the stage-1 pixels. -/
def envSouth (P : SmapInput) : ℚ :=
  (stage1Cells P).foldl
    (fun acc c => if lat_of_row P c.1 < acc then lat_of_row P c.1 else acc) 90

/-- Running `if row.lon > east: east = row.lon` over the stage-1 pixels. -/
def envEast (P : SmapInput) : ℚ :=
  (stage1Cells P).foldl
    (fun acc c => if acc < lon_of_col P c.2.1 then lon_of_col P c.2.1 else acc) 0

/-- A projection of a fold state that is updated exactly on kept elements
factors through the filtered list. -/
theorem foldl_proj {α β γ : Type} (step : γ → α → γ) (proj : γ → β)
    (g : β → α → β) (keep : α → Bool)
    (hstep : ∀ st a, proj (step st a) = if keep a then g (proj st) a else proj st) :
    ∀ (l : List α) (st : γ), proj (l.foldl step st) = (l.filter keep).foldl g (proj st) := by
  intro l
  induction l with
  | nil => intro st; rfl
  | cons a t ih =>
    intro st
    rw [List.foldl_cons, ih, List.filter_cons]
    cases hk : keep a
    · simp only [Bool.false_eq_true, if_false, hstep, hk]
    · simp only [if_true, List.foldl_cons, hstep, hk]

/-- The loop body updates `north` exactly on stage-1 pixels. -/
theorem smapStep_north (P : SmapInput) (st : ExtractState) (c : ℕ × ℕ × ℕ) :
    (smapStep P st c).north =
      if keepStage1 P c.1 c.2.1 c.2.2 then
        (if st.north < lat_of_row P c.1 then lat_of_row P c.1 else st.north)
      else st.north := by
  unfold smapStep
  simp only [mkRow]
  cases hk : keepStage1 P c.1 c.2.1 c.2.2
  · rw [if_neg Bool.false_ne_true, if_neg Bool.false_ne_true]
  · rw [if_pos rfl, if_pos rfl]
    split
    · rfl
    · rfl

/-- The loop body updates `west` exactly on stage-1 pixels. -/
theorem smapStep_west (P : SmapInput) (st : ExtractState) (c : ℕ × ℕ × ℕ) :
    (smapStep P st c).west =
      if keepStage1 P c.1 c.2.1 c.2.2 then
        (if lon_of_col P c.2.1 < st.west then lon_of_col P c.2.1 else st.west)
      else st.west := by
  unfold smapStep
  simp only [mkRow]
  cases hk : keepStage1 P c.1 c.2.1 c.2.2
  · rw [if_neg Bool.false_ne_true, if_neg Bool.false_ne_true]
  · rw [if_pos rfl, if_pos rfl]
    split
    · rfl
    · rfl

/-- The loop body updates `south` exactly on stage-1 pixels. -/
theorem smapStep_south (P : SmapInput) (st : ExtractState) (c : ℕ × ℕ × ℕ) :
    (smapStep P st c).south =
      if keepStage1 P c.1 c.2.1 c.2.2 then
        (if lat_of_row P c.1 < st.south then lat_of_row P c.1 else st.south)
      else st.south := by
  unfold smapStep
  simp only [mkRow]
  cases hk : keepStage1 P c.1 c.2.1 c.2.2
  · rw [if_neg Bool.false_ne_true, if_neg Bool.false_ne_true]
  · rw [if_pos rfl, if_pos rfl]
    split
    · rfl
    · rfl

/-- The loop body updates `east` exactly on stage-1 pixels. -/
theorem smapStep_east (P : SmapInput) (st : ExtractState) (c : ℕ × ℕ × ℕ) :
    (smapStep P st c).east =
      if keepStage1 P c.1 c.2.1 c.2.2 then
        (if st.east < lon_of_col P c.2.1 then lon_of_col P c.2.1 else st.east)
      else st.east := by
  unfold smapStep
  simp only [mkRow]
  cases hk : keepStage1 P c.1 c.2.1 c.2.2
  · rw [if_neg Bool.false_ne_true, if_neg Bool.false_ne_true]
  · rw [if_pos rfl, if_pos rfl]
    split
    · rfl
    · rfl

/-- C9, amended: for every input, the padded bounding area equals the
0.5°-padded running min/max envelope of the pixels that survive the
stage-1 filters (missing-value, degenerate pass times, temporal window) —
not of the kept pixels only: pixels dropped afterwards by the
midnight-rounding check still feed the envelope. -/
theorem c9_envelope_stage1 (P : SmapInput) :
    areaOf (get_smap_part_loop P) =
      (envNorth P + 1/2, envWest P - 1/2, envSouth P - 1/2, envEast P + 1/2) := by
  have hN := foldl_proj (smapStep P) ExtractState.north
    (fun acc c => if acc < lat_of_row P c.1 then lat_of_row P c.1 else acc)
    (fun c => keepStage1 P c.1 c.2.1 c.2.2) (smapStep_north P) (cells P) initState
  have hW := foldl_proj (smapStep P) ExtractState.west
    (fun acc c => if lon_of_col P c.2.1 < acc then lon_of_col P c.2.1 else acc)
    (fun c => keepStage1 P c.1 c.2.1 c.2.2) (smapStep_west P) (cells P) initState
  have hS := foldl_proj (smapStep P) ExtractState.south
    (fun acc c => if lat_of_row P c.1 < acc then lat_of_row P c.1 else acc)
    (fun c => keepStage1 P c.1 c.2.1 c.2.2) (smapStep_south P) (cells P) initState
  have hE := foldl_proj (smapStep P) ExtractState.east
    (fun acc c => if acc < lon_of_col P c.2.1 then lon_of_col P c.2.1 else acc)
    (fun c => keepStage1 P c.1 c.2.1 c.2.2) (smapStep_east P) (cells P) initState
  simp only [initState] at hN hW hS hE
  simp only [areaOf, get_smap_part_loop, envNorth, envWest, envSouth, envEast,
    stage1Cells, initState]
  rw [hN, hW, hS, hE]

/-- The claim's bounding area (comparison definition following the spec's
words): the running min/max envelope of the kept (appended) pixels,
padded by 0.5° on every side. -/
def keptEnvelopeArea (rows : List SRow) : ℚ × ℚ × ℚ × ℚ :=
  (rows.foldl (fun acc r => if acc < r.lat then r.lat else acc) (-90) + 1/2,
   rows.foldl (fun acc r => if r.lon < acc then r.lon else acc) 360 - 1/2,
   rows.foldl (fun acc r => if r.lat < acc then r.lat else acc) 90 - 1/2,
   rows.foldl (fun acc r => if acc < r.lon then r.lon else acc) 0 + 1/2)

/-- A 1×2×2 extraction input at query time 23:10:00 of day 5: the pixel in
column 0 (lon 100.125°) is at 23:15 and is kept; the pixel in column 1
(lon 100.375°) is at 23:30, passes the temporal window — updating the
envelope — and is then discarded because its hour rounds to the next
day. -/
def P9 : SmapInput :=
  { ny := 1
    nx := 2
    np_ := 2
    minute := fun y x i =>
      if y = 0 ∧ x = 0 ∧ i = 0 then 1395
      else if y = 0 ∧ x = 1 ∧ i = 0 then 1410 else 9999
    wind := fun _ x _ => if x = 0 then 20 else 25
    minuteMissing := 9999
    windMissing := -1
    tcDay := 5
    tcSec := 83400
    lat1 := 10.125
    lon1 := 100.125
    halfIntervals := 2
    sid := 7 }

/-- C9, counterexample: on `P9` the returned area's east edge is
100.375 + 0.5 (fed by the discarded 23:30 pixel), while the claim's
kept-pixels envelope gives 100.125 + 0.5. -/
theorem c9_counterexample :
    areaOf (get_smap_part_loop P9) ≠
      keptEnvelopeArea (get_smap_part_loop P9).data := by
  have htkA : timeKeep 83400 1395 = true := by decide
  have htkB : timeKeep 83400 1410 = true := by decide
  have hcells : cells P9 = [(0, 0, 0), (0, 0, 1), (0, 1, 0), (0, 1, 1)] := by decide
  have hloop : get_smap_part_loop P9 =
      ⟨[⟨7, ⟨5, 23, 15⟩, -2, -2, 801/8, 81/8, 20⟩], 81/8, 801/8, 81/8, 803/8, [23]⟩ := by
    rw [get_smap_part_loop, hcells]
    simp only [List.foldl_cons, List.foldl_nil]
    norm_num [smapStep, keepStage1, mkRow, lat_of_row, lon_of_col, hour_rounder,
      P9, initState, smapRes, htkA, htkB]
  rw [hloop]
  norm_num [areaOf, keptEnvelopeArea, Prod.ext_iff]

/-! ## C10: the hour-bucket builder always receives a non-empty list -/

/-- Whether an `Except` value is a success. -/
def exceptIsOk {α : Type} : Except String α → Bool
  | Except.ok _ => true
  | Except.error _ => false

/-- C10: every record list the orchestrator hands to
`get_hourtime_row_mapper` is non-empty — `extract_detail` returns early on
an empty extraction before either reanalysis pass runs — so the builder's
read of `satel_part[0]` succeeds on every call the pipeline makes. -/
theorem c10_mapper_calls_nonempty (D : SmapDataset) (h sid tcDay tcSec : ℕ)
    (tc_lon tc_lat : ℚ) (tr : List (List SRow)) (l : List SRow)
    (htr : extract_detail_mapper_calls D h sid tcDay tcSec tc_lon tc_lat =
      Except.ok tr)
    (hl : l ∈ tr) :
    l ≠ [] ∧ exceptIsOk (get_hourtime_row_mapper l) = true := by
  unfold extract_detail_mapper_calls at htr
  cases hsm : extract_smap D h sid tcDay tcSec tc_lon tc_lat with
  | error e =>
    rw [hsm] at htr
    exact absurd htr (by simp)
  | ok v =>
    obtain ⟨data, ht, ar⟩ := v
    rw [hsm] at htr
    simp only at htr
    by_cases hlen : data.length = 0
    · rw [if_pos hlen] at htr
      injection htr with htr
      subst htr
      simp at hl
    · rw [if_neg hlen] at htr
      injection htr with htr
      subst htr
      have hdne : data ≠ [] := by
        intro hc
        rw [hc] at hlen
        exact hlen rfl
      have hld : l = data := by
        simp only [add_era5_single_levels_rows, List.mem_cons,
          List.not_mem_nil, or_false, or_self] at hl
        exact hl
      subst hld
      refine ⟨hdne, ?_⟩
      cases hdata : l with
      | nil => exact absurd hdata hdne
      | cons r0 rest => rfl

/-- A dataset holding exactly one valid pixel, at grid cell (400, 400) of
pass 0, observed at minute-of-day 690 (11:30). -/
def D10 : SmapDataset :=
  { minute := fun la lo i => if la = 400 ∧ lo = 400 ∧ i = 0 then 690 else 9999
    wind := fun _ _ _ => 20
    passes := 2
    minuteMissing := 9999
    windMissing := -1 }

/-- The record `D10` produces for a query at 11:30:00 of day 5 centered on
(100.125°E, 10.125°N) with a zero-step half window. -/
def row10 : SRow := ⟨7, ⟨5, 11, 30⟩, 0, 0, 801/8, 81/8, 20⟩

/-- C10, witness: a pipeline run that extracts one record makes two
hour-bucket-builder calls, each on the non-empty one-record list. -/
theorem c10_mapper_calls_nonempty_witness :
    [row10] ≠ [] ∧ exceptIsOk (get_hourtime_row_mapper [row10]) = true := by
  have hlat : nearestIdxUniform (-89.875) smapRes 720 (81/8) = 400 :=
    nearestIdxUniform_eval _ _ _ _ 400 (by norm_num) (by norm_num)
      (by norm_num [smapRes]) (by norm_num [smapRes])
  have hlon : nearestIdxUniform 0.125 smapRes 1440 (801/8) = 400 :=
    nearestIdxUniform_eval _ _ _ _ 400 (by norm_num) (by norm_num)
      (by norm_num [smapRes]) (by norm_num [smapRes])
  have hpy1 : pyListGet 720 smapLatVal ((400 : ℤ) - 0) = Except.ok (81/8) := by
    norm_num [pyListGet, smapLatVal, smapRes]
  have hpy2 : pyListGet 720 smapLatVal ((400 : ℤ) + 0) = Except.ok (81/8) := by
    norm_num [pyListGet, smapLatVal, smapRes]
  have hpy3 : pyListGet 1440 smapLonVal ((400 : ℤ) - 0) = Except.ok (801/8) := by
    norm_num [pyListGet, smapLonVal, smapRes]
  have hpy4 : pyListGet 1440 smapLonVal ((400 : ℤ) + 0) = Except.ok (801/8) := by
    norm_num [pyListGet, smapLonVal, smapRes]
  have hfl : (⌊((801 : ℚ)/8 + 360) / 360⌋ : ℤ) = 1 := by
    rw [Int.floor_eq_iff] <;> norm_num
  have hsq : get_square_around_tc 0 (801/8) (81/8) =
      Except.ok ⟨true, 400, 400, 400, 400, 81/8, 801/8⟩ := by
    simp only [get_square_around_tc, Nat.cast_ofNat, Nat.cast_zero]
    rw [hlat, hlon, hpy1, hpy2, hpy3, hpy4]
    norm_num [squareFromReads, pyFmod, hfl]
  have htk : timeKeep 41400 690 = true := by decide
  have hcore : get_smap_part_core D10 0 7 5 41400 ⟨true, 400, 400, 400, 400, 81/8, 801/8⟩ =
      GsmapRet.triple [row10] [12] (85/8, 797/8, 77/8, 805/8) := by
    rw [get_smap_part_core]
    rw [if_neg (by simp)]
    have ht401 : ((401 : ℤ).toNat) = 401 := rfl
    have ht400 : ((400 : ℤ).toNat) = 400 := rfl
    norm_num [get_smap_part_loop, cells, pySliceStart, pySliceLen,
      ht401, ht400, List.range_succ,
      List.flatMap_append, List.flatMap_cons, List.flatMap_nil,
      List.foldl_cons, List.foldl_nil,
      smapStep, keepStage1, mkRow, lat_of_row, lon_of_col, hour_rounder,
      D10, initState, smapRes, htk, row10, areaOf]
  have hcalls : extract_detail_mapper_calls D10 0 7 5 41400 (801/8) (81/8) =
      Except.ok [[row10], [row10]] := by
    unfold extract_detail_mapper_calls extract_smap get_smap_part
    rw [hsq]
    simp only [hcore, unpack3]
    rw [if_neg (by simp)]
    rfl
  exact c10_mapper_calls_nonempty D10 0 7 5 41400 (801/8) (81/8)
    [[row10], [row10]] [row10] hcalls (by simp)

end SeaWind
